import Mathlib

/-!
Shallow embedding of the JWT/JWKS authentication engine of the `conductor`
gateway (`plugins/jwt_auth/src/plugin.rs`), used to check the natural-language
specification against the code.

External collaborators (the `jsonwebtoken` crate's `decode`,
`DecodingKey::from_jwk` and `Algorithm::from_str`; the `cookie` crate's
`Cookie::parse_encoded`; `conductor_common`'s `parse_query_string`; header
value/name parsing from the `http` crate) are modelled either as explicit
function parameters (oracles) or, where their behaviour is fixed and simple
(`Algorithm::from_str`), as concrete functions.
-/

set_option autoImplicit false

namespace Conductor

/-- JSON values, mirroring `serde_json::Value`.  Numbers are collapsed to
`Int`; the distinction is irrelevant to the engine, which only inspects
strings, arrays and objects. -/
inductive Value where
  | null
  | bool (b : Bool)
  | num (n : Int)
  | str (s : String)
  | arr (xs : List Value)
  | obj (fields : List (String × Value))

/-- `serde_json::Value::get(key)`: object member lookup; `None` on any
non-object value. -/
def Value.get : Value → String → Option Value
  | .obj fields, key => fields.lookup key
  | _, _ => none

/-- `Value::as_str()`: `Some` exactly on JSON strings. -/
def Value.asStr : Value → Option String
  | .str s => some s
  | _ => none

/-- The signature algorithms of `jsonwebtoken::Algorithm`. -/
inductive Algorithm where
  | HS256 | HS384 | HS512
  | ES256 | ES384
  | RS256 | RS384 | RS512
  | PS256 | PS384 | PS512
  | EdDSA
deriving DecidableEq

/-- `jsonwebtoken::Algorithm::from_str`: parses the algorithm names the crate
supports, and nothing else (e.g. the JWA encryption algorithms such as
`RSA-OAEP` that may appear as a JWK `alg` are rejected). -/
def algorithmFromStr (s : String) : Option Algorithm :=
  match s with
  | "HS256" => some .HS256
  | "HS384" => some .HS384
  | "HS512" => some .HS512
  | "ES256" => some .ES256
  | "ES384" => some .ES384
  | "RS256" => some .RS256
  | "RS384" => some .RS384
  | "RS512" => some .RS512
  | "PS256" => some .PS256
  | "PS384" => some .PS384
  | "PS512" => some .PS512
  | "EdDSA" => some .EdDSA
  | _ => none

/-- Errors of the `jsonwebtoken` crate (`jsonwebtoken::errors::Error`),
restricted to the kinds this engine constructs or observes. -/
inductive JwtLibError where
  | invalidIssuer
  | invalidAudience
  | invalidAlgorithmName
  | other (s : String)
deriving DecidableEq

/-- A verification key, `jsonwebtoken::jwk::Jwk`, keeping the two fields the
engine reads: `common.key_id` and `common.key_algorithm` (the latter as the
string its `to_string` renders).  The cryptographic key material is abstracted
into the `DecodingKey::from_jwk` oracle. -/
structure Jwk where
  key_id : Option String
  key_algorithm : Option String
deriving DecidableEq

/-- `jsonwebtoken::jwk::JwkSet`. -/
structure JwkSet where
  keys : List Jwk
deriving DecidableEq

/-- The unverified token header (`jsonwebtoken::Header`), restricted to the
fields the engine reads. -/
structure JwtHeader where
  alg : Algorithm
  kid : Option String
deriving DecidableEq

/-- Abstract decoding key; the key material plays no role in the control flow
being verified. -/
inductive DecodingKey where
  | mk
deriving DecidableEq

/-- `TokenData<Value>`: verified header plus claim set. -/
structure TokenPayload where
  header : JwtHeader
  claims : Value

/-- `jsonwebtoken::Validation` as configured by `try_decode_from_jwk`: the
algorithm, plus the issuer and audience sets installed by `set_issuer` /
`set_audience` when the corresponding allow-list is configured. -/
structure Validation where
  alg : Algorithm
  iss : Option (List String)
  aud : Option (List String)

/-- A header value of the `http` crate.  What matters to the engine is only
whether `to_str` succeeds (the value is visible ASCII) and with which string,
so the value is modelled as that alternative. -/
inductive HeaderValue where
  | valid (s : String)
  | invalid
deriving DecidableEq

/-- `HeaderValue::to_str()`. -/
def HeaderValue.to_str : HeaderValue → Option String
  | .valid s => some s
  | .invalid => none

/-- The inbound request abstraction (`ConductorHttpRequest`), restricted to
the parts the JWT plugin reads.  Header names are modelled already
normalised (lowercase), matching the `http` crate's case-insensitive map. -/
structure ConductorHttpRequest where
  headers : List (String × HeaderValue)
  query_string : String

/-- `HeaderMap::get`: first entry with the given name. -/
def headers_get (headers : List (String × HeaderValue)) (name : String) :
    Option HeaderValue :=
  (headers.find? (fun p => p.1 == name)).map (fun p => p.2)

/-- Credential lookup rules, `JwtAuthPluginLookupLocation` (the jwt_auth
plugin's config module; variants and fields as matched by `lookup`).  The
`pfx` field is the header rule's optional scheme prefix. -/
inductive JwtAuthPluginLookupLocation where
  | header (name : String) (pfx : Option String)
  | query_param (name : String)
  | cookie (name : String)

/-- `JwtAuthPluginConfig`, restricted to the fields `plugin.rs` reads
(the `jwks_providers` list feeds the external fetch layer and is abstracted
away). -/
structure JwtAuthPluginConfig where
  lookup_locations : List JwtAuthPluginLookupLocation
  issuers : Option (List String)
  audiences : Option (List String)
  forward_claims_to_upstream_header : Option String
  forward_token_to_upstream_header : Option String
  reject_unauthenticated_requests : Option Bool

/-- `LookupError` of `plugin.rs`.  The `ToStrError` payload of
`FailedToStringifyHeader` carries no information the engine inspects and is
dropped. -/
inductive LookupError where
  | lookupFailed
  | mismatchedPrefix
  | failedToStringifyHeader
deriving DecidableEq

/-- `JwtError` of `plugin.rs`. -/
inductive JwtError where
  | lookupFailed (e : LookupError)
  | invalidJwtHeader (e : JwtLibError)
  | invalidDecodingKey (e : JwtLibError)
  | failedToLocateProvider
  | jwkMissingAlgorithm
  | jwkAlgorithmNotSupported (e : JwtLibError)
  | failedToDecodeToken (e : JwtLibError)
  | allProvidersFailedToDecode (errors : List JwtError)
  | httpRequestParsingError (s : String)

/-- `impl From<JwtError> for StatusCode` (`plugin.rs`, lines 83-98); the
status code as its numeric value. -/
def jwtErrorToStatusCode : JwtError → Nat
  | .invalidJwtHeader _
  | .lookupFailed _
  | .jwkAlgorithmNotSupported _
  | .httpRequestParsingError _ => 400
  | .jwkMissingAlgorithm
  | .failedToLocateProvider
  | .invalidDecodingKey _ => 500
  | .allProvidersFailedToDecode _
  | .failedToDecodeToken _ => 401

/-! ## Key matching (`find_matching_jwks`, lines 130-160) -/

/-- The `kid` phase of `find_matching_jwks`: the first key set holding a key
whose `key_id` equals the token's `kid`. -/
def kid_scan (jwt_kid : String) (jwks : List JwkSet) : Option JwkSet :=
  jwks.find? (fun s => s.keys.any (fun k => k.key_id == some jwt_kid))

/-- The inner loop of the `alg` fallback phase over one key set's keys:
`Ok true` when a key's declared algorithm parses and equals the token's,
`Ok false` when the keys are exhausted, and the `JwkAlgorithmNotSupported`
error as soon as a declared algorithm string fails to parse (the `?` in the
source propagates it out of the whole function). -/
def alg_scan_keys (alg : Algorithm) : List Jwk → Except JwtError Bool
  | [] => .ok false
  | k :: rest =>
    match k.key_algorithm with
    | none => alg_scan_keys alg rest
    | some s =>
      match algorithmFromStr s with
      | none => .error (.jwkAlgorithmNotSupported .invalidAlgorithmName)
      | some a => if a = alg then .ok true else alg_scan_keys alg rest

/-- The outer loop of the `alg` fallback phase of `find_matching_jwks`. -/
def alg_scan (alg : Algorithm) : List JwkSet → Except JwtError JwkSet
  | [] => .error .failedToLocateProvider
  | s :: rest =>
    match alg_scan_keys alg s.keys with
    | .error e => .error e
    | .ok true => .ok s
    | .ok false => alg_scan alg rest

/-- `JwtAuthPlugin::find_matching_jwks` (lines 130-160): `kid` matching first
when the header carries a `kid`; the `alg` fallback otherwise or when no
`kid` matched. -/
def find_matching_jwks (jwt_header : JwtHeader) (jwks : List JwkSet) :
    Except JwtError JwkSet :=
  match jwt_header.kid with
  | some jwt_kid =>
    match kid_scan jwt_kid jwks with
    | some s => .ok s
    | none => alg_scan jwt_header.alg jwks
  | none => alg_scan jwt_header.alg jwks

/-! ## Credential lookup (`lookup`, lines 162-226) -/

/-- The inner cookie loop of `lookup`: each `;`-separated segment is parsed
(`Cookie::parse_encoded`, passed in as `parse_cookie` since the `cookie`
crate is external); parse failures are logged and skipped; the first cookie
with the configured name wins. -/
def find_cookie (parse_cookie : String → Option (String × String))
    (name : String) : List String → Option String
  | [] => none
  | item :: rest =>
    match parse_cookie item with
    | some (cookie_name, cookie_value) =>
      if cookie_name = name then some cookie_value
      else find_cookie parse_cookie name rest
    | none => find_cookie parse_cookie name rest

/-- `str::strip_prefix`, on the character sequences of the strings. -/
def stripPfx (s p : String) : Option String :=
  if p.data.isPrefixOf s.data then some ⟨s.data.drop p.data.length⟩ else none

/-- `JwtAuthPlugin::lookup` (lines 162-226), recursing over the configured
lookup locations.  `parse_query_string` (from `conductor_common::http`) and
`Cookie::parse_encoded` are external and passed as parameters.  Note the
header rule's `to_str` failure is propagated with `?` (fails the whole
lookup), while the cookie rule's `to_str` failure `continue`s to the next
rule. -/
def lookup (parse_query_string : String → List (String × String))
    (parse_cookie : String → Option (String × String))
    (locations : List JwtAuthPluginLookupLocation)
    (req : ConductorHttpRequest) : Except LookupError String :=
  match locations with
  | [] => .error .lookupFailed
  | loc :: rest =>
    match loc with
    | .header name pfx =>
      match headers_get req.headers name with
      | some header_value =>
        match header_value.to_str with
        | none => .error .failedToStringifyHeader
        | some v =>
          match pfx with
          | some p =>
            match stripPfx v p with
            | some stripped_value => .ok stripped_value.trim
            | none => .error .mismatchedPrefix
          | none => .ok v
      | none => lookup parse_query_string parse_cookie rest req
    | .query_param name =>
      match (parse_query_string req.query_string).lookup name with
      | some query_value => .ok query_value
      | none => lookup parse_query_string parse_cookie rest req
    | .cookie name =>
      match headers_get req.headers "cookie" with
      | some cookie_raw =>
        match cookie_raw.to_str with
        | none => lookup parse_query_string parse_cookie rest req
        | some cookies =>
          match find_cookie parse_cookie name (cookies.splitOn ";") with
          | some value => .ok value
          | none => lookup parse_query_string parse_cookie rest req
      | none => lookup parse_query_string parse_cookie rest req

/-! ## Verification (`try_decode_from_jwk`, lines 228-293) -/

/-- The post-decode audience check of `try_decode_from_jwk` (lines 271-290):
with an audience allow-list configured, an `aud` claim that is an array must
consist of strings all contained in the list, and a missing `aud` claim is
rejected; every other shape (including a present non-array `aud`) falls into
the wildcard arm and passes. -/
def audience_post_check (config : JwtAuthPluginConfig)
    (token_data : TokenPayload) : Except JwtError TokenPayload :=
  match config.audiences, token_data.claims.get "aud" with
  | some audiences, some (.arr token_aud) =>
    if token_aud.all (fun v =>
        match v with
        | .str s => audiences.contains s
        | _ => false) then
      .ok token_data
    else
      .error (.failedToDecodeToken .invalidAudience)
  | some _, none => .error (.failedToDecodeToken .invalidAudience)
  | _, _ => .ok token_data

/-- The post-decode issuer check of `try_decode_from_jwk` (lines 255-269),
continuing into the audience check when it passes: with an issuer allow-list
configured, a string `iss` claim must be contained in the list and a missing
`iss` claim is rejected; every other shape (including a present non-string
`iss`) falls into the wildcard arm and passes. -/
def issuer_post_check (config : JwtAuthPluginConfig)
    (token_data : TokenPayload) : Except JwtError TokenPayload :=
  match config.issuers, token_data.claims.get "iss" with
  | some issuers, some (.str token_iss) =>
    if issuers.contains token_iss then audience_post_check config token_data
    else .error (.failedToDecodeToken .invalidIssuer)
  | some _, none => .error (.failedToDecodeToken .invalidIssuer)
  | _, _ => audience_post_check config token_data

/-- `JwtAuthPlugin::try_decode_from_jwk` (lines 228-293).  The external
`DecodingKey::from_jwk` and `jsonwebtoken::decode` are oracles `from_jwk`
and `decode`; `decode` receives the `Validation` built from the key's
algorithm and the configured issuer/audience lists. -/
def try_decode_from_jwk
    (from_jwk : Jwk → Except JwtLibError DecodingKey)
    (decode : String → DecodingKey → Validation → Except JwtLibError TokenPayload)
    (config : JwtAuthPluginConfig) (token : String) (jwk : Jwk) :
    Except JwtError TokenPayload :=
  match from_jwk jwk with
  | .error e => .error (.invalidDecodingKey e)
  | .ok decoding_key =>
    match jwk.key_algorithm with
    | none => .error .jwkMissingAlgorithm
    | some key_alg =>
      match algorithmFromStr key_alg with
      | none => .error (.jwkAlgorithmNotSupported .invalidAlgorithmName)
      | some alg =>
        let validation : Validation := ⟨alg, config.issuers, config.audiences⟩
        match decode token decoding_key validation with
        | .error e => .error (.failedToDecodeToken e)
        | .ok token_data => issuer_post_check config token_data

/-! ## Multi-key verification (`decode_and_validate_token`, lines 295-308) -/

/-- `Result::is_ok`. -/
def isOkB {ε α : Type} : Except ε α → Bool
  | .ok _ => true
  | .error _ => false

/-- `Result::unwrap_err`, with an arbitrary default on the `Ok` branch where
the source would panic; `decode_and_validate_token` only applies it after
establishing that no attempt succeeded, so the default is unreachable there. -/
def unwrapErr : Except JwtError TokenPayload → JwtError
  | .error e => e
  | .ok _ => .failedToLocateProvider

/-- `JwtAuthPlugin::decode_and_validate_token` (lines 295-308), with the
per-key attempt `self.try_decode_from_jwk(token, jwk)` abstracted as `td`:
the first successful attempt wins; otherwise every attempt's error is
aggregated, in key order, into `AllProvidersFailedToDecode`. -/
def decode_and_validate_token (td : Jwk → Except JwtError TokenPayload)
    (jwks : List Jwk) : Except JwtError TokenPayload :=
  let decode_attempts := jwks.map td
  match decode_attempts.find? (fun r => isOkB r) with
  | some success => success
  | none => .error (.allProvidersFailedToDecode (decode_attempts.map unwrapErr))

/-! ## Pipeline adapter (`on_downstream_http_request` /
`on_upstream_http_request`, lines 336-435) -/

/-- Reserved context key for verified claims. -/
def CLAIMS_CONTEXT_KEY : String := "jwt_auth:upstream:claims"

/-- Reserved context key for the raw verified token. -/
def TOKEN_CONTEXT_KEY : String := "jwt_auth:upstream:token"

/-- The request-scoped execution context: the generic key-value store written
through `ctx_insert` / read through `ctx_get`, and the short-circuit response
(message and status code) when set. -/
structure RequestExecutionContext where
  ctx : List (String × Value)
  circuit_response : Option (String × Nat)
deriving Inhabited

/-- `RequestExecutionContext::ctx_insert`: map update (newest binding
shadows). -/
def ctx_insert (c : RequestExecutionContext) (key : String) (v : Value) :
    RequestExecutionContext :=
  { c with ctx := (key, v) :: c.ctx }

/-- `RequestExecutionContext::ctx_get`. -/
def ctx_get (c : RequestExecutionContext) (key : String) : Option Value :=
  c.ctx.lookup key

/-- `RequestExecutionContext::short_circuit` with a
`GraphQLResponse::new_error(msg).into_with_status_code(code)` payload. -/
def set_short_circuit (c : RequestExecutionContext) (msg : String)
    (code : Nat) : RequestExecutionContext :=
  { c with circuit_response := some (msg, code) }

/-- `Option::is_some_and(|v| v)`. -/
def isSomeAndTrue : Option Bool → Bool
  | some b => b
  | none => false

/-- The state transition of `Plugin::on_downstream_http_request`
(lines 336-379) on the request-scoped context, with the outcome of
`authenticate` over the fetched key sets passed in as `auth_result` (the
provider fetch layer is external). -/
def on_downstream_http_request (config : JwtAuthPluginConfig)
    (auth_result : Except JwtError (TokenPayload × String))
    (c : RequestExecutionContext) : RequestExecutionContext :=
  match auth_result with
  | .ok (token_data, token) =>
    let c1 :=
      if config.forward_claims_to_upstream_header.isSome then
        ctx_insert c CLAIMS_CONTEXT_KEY token_data.claims
      else c
    if config.forward_token_to_upstream_header.isSome then
      ctx_insert c1 TOKEN_CONTEXT_KEY (.str token)
    else c1
  | .error e =>
    if isSomeAndTrue config.reject_unauthenticated_requests then
      set_short_circuit c "unauthenticated request" (jwtErrorToStatusCode e)
    else c

/-- The token-forwarding phase of `on_upstream_http_request`
(lines 411-434): `parse_header_value` and `parse_header_name` stand for the
`http` crate's `HeaderValue` / `HeaderName` parsing. -/
def forward_token_phase
    (parse_header_value : String → Option HeaderValue)
    (parse_header_name : String → Option String)
    (config : JwtAuthPluginConfig) (c : RequestExecutionContext)
    (upstream_req : ConductorHttpRequest) :
    RequestExecutionContext × ConductorHttpRequest :=
  match config.forward_token_to_upstream_header with
  | some header_name =>
    match ctx_get c TOKEN_CONTEXT_KEY with
    | some token =>
      match token.asStr.bind (fun t => parse_header_value t) with
      | some header_value =>
        match parse_header_name header_name with
        | some hn =>
          (c, { upstream_req with
                  headers := upstream_req.headers ++ [(hn, header_value)] })
        | none =>
          (set_short_circuit c "Failed to parse header name for token" 400,
           upstream_req)
      | none =>
        (set_short_circuit c "Failed to convert token to header value" 400,
         upstream_req)
    | none => (c, upstream_req)
  | none => (c, upstream_req)

/-- `Plugin::on_upstream_http_request` (lines 381-435): the claims-forwarding
phase followed, when it does not short-circuit, by the token-forwarding
phase.  `value_to_string` stands for `serde_json`'s `Value::to_string`. -/
def on_upstream_http_request
    (parse_header_value : String → Option HeaderValue)
    (parse_header_name : String → Option String)
    (value_to_string : Value → String)
    (config : JwtAuthPluginConfig) (c : RequestExecutionContext)
    (upstream_req : ConductorHttpRequest) :
    RequestExecutionContext × ConductorHttpRequest :=
  match config.forward_claims_to_upstream_header with
  | some header_name =>
    match ctx_get c CLAIMS_CONTEXT_KEY with
    | some claims =>
      match parse_header_value (value_to_string claims) with
      | some header_value =>
        match parse_header_name header_name with
        | some hn =>
          forward_token_phase parse_header_value parse_header_name config c
            { upstream_req with
                headers := upstream_req.headers ++ [(hn, header_value)] }
        | none =>
          (set_short_circuit c "Failed to parse header name for claims" 400,
           upstream_req)
      | none =>
        (set_short_circuit c "Failed to parse claims as header value" 400,
         upstream_req)
    | none =>
      forward_token_phase parse_header_value parse_header_name config c
        upstream_req
  | none =>
    forward_token_phase parse_header_value parse_header_name config c
      upstream_req

/-! ## Helper lemmas -/

/-- A prefix of keys that neither matched nor errored leaves the in-set
algorithm scan where it would start on the remaining keys. -/
theorem alg_scan_keys_append (alg : Algorithm) (pre l : List Jwk)
    (h : alg_scan_keys alg pre = .ok false) :
    alg_scan_keys alg (pre ++ l) = alg_scan_keys alg l := by
  induction pre with
  | nil => simp
  | cons k rest ih =>
    cases hk : k.key_algorithm with
    | none =>
      simp only [alg_scan_keys, hk] at h
      simpa only [List.cons_append, alg_scan_keys, hk] using ih h
    | some s =>
      cases hp : algorithmFromStr s with
      | none => simp [alg_scan_keys, hk, hp] at h
      | some a =>
        by_cases ha : a = alg
        · simp [alg_scan_keys, hk, hp, ha] at h
        · simp only [alg_scan_keys, hk, hp, if_neg ha] at h
          simpa only [List.cons_append, alg_scan_keys, hk, hp, if_neg ha] using ih h

/-- The `kid` scan returns the first key set holding a matching key. -/
theorem kid_scan_first_match (kid : String) (pre : List JwkSet) (s : JwkSet)
    (post : List JwkSet)
    (hpre : ∀ t ∈ pre, ∀ k ∈ t.keys, k.key_id ≠ some kid)
    (hs : ∃ k ∈ s.keys, k.key_id = some kid) :
    kid_scan kid (pre ++ s :: post) = some s := by
  induction pre with
  | nil =>
    obtain ⟨k, hk, hk2⟩ := hs
    have hps : (s.keys.any (fun k => k.key_id == some kid)) = true :=
      List.any_eq_true.mpr ⟨k, hk, by simp [hk2]⟩
    simp [kid_scan, List.find?_cons, hps]
  | cons t rest ih =>
    have hpt : (t.keys.any (fun k => k.key_id == some kid)) = false := by
      rw [List.any_eq_false]
      intro k hk
      simp [hpre t (by simp) k hk]
    have hrest := ih (fun t' ht' => hpre t' (by simp [ht']))
    simp only [kid_scan, List.cons_append, List.find?_cons, hpt] at hrest ⊢
    exact hrest

/-! ## Claim theorems -/

/-- C1: the `From<JwtError> for StatusCode` conversion yields exactly 400 for
`LookupFailed`, `InvalidJwtHeader`, `JwkAlgorithmNotSupported` and
`HTTPRequestParsingError`; 500 for `JwkMissingAlgorithm`,
`FailedToLocateProvider` and `InvalidDecodingKey`; and 401 for
`AllProvidersFailedToDecode` and `FailedToDecodeToken`. -/
theorem c1_jwt_error_status_mapping :
    (∀ e, jwtErrorToStatusCode (.lookupFailed e) = 400)
  ∧ (∀ e, jwtErrorToStatusCode (.invalidJwtHeader e) = 400)
  ∧ (∀ e, jwtErrorToStatusCode (.jwkAlgorithmNotSupported e) = 400)
  ∧ (∀ s, jwtErrorToStatusCode (.httpRequestParsingError s) = 400)
  ∧ jwtErrorToStatusCode .jwkMissingAlgorithm = 500
  ∧ jwtErrorToStatusCode .failedToLocateProvider = 500
  ∧ (∀ e, jwtErrorToStatusCode (.invalidDecodingKey e) = 500)
  ∧ (∀ es, jwtErrorToStatusCode (.allProvidersFailedToDecode es) = 401)
  ∧ (∀ e, jwtErrorToStatusCode (.failedToDecodeToken e) = 401) :=
  ⟨fun _ => rfl, fun _ => rfl, fun _ => rfl, fun _ => rfl, rfl, rfl,
   fun _ => rfl, fun _ => rfl, fun _ => rfl⟩

/-- C5 counterexample: with no `kid` and a first key whose declared algorithm
`RSA-OAEP` is unparseable, the whole matching pass aborts with
`JwkAlgorithmNotSupported`, even though the second key set would match the
token's `RS256` by algorithm (second conjunct): the error is not confined to
the single key, refuting the claim that matching continues. -/
theorem c5_counterexample :
    find_matching_jwks ⟨.RS256, none⟩
        [⟨[⟨none, some "RSA-OAEP"⟩]⟩, ⟨[⟨none, some "RS256"⟩]⟩]
      = .error (.jwkAlgorithmNotSupported .invalidAlgorithmName)
  ∧ find_matching_jwks ⟨.RS256, none⟩ [⟨[⟨none, some "RS256"⟩]⟩]
      = .ok ⟨[⟨none, some "RS256"⟩]⟩ :=
  ⟨rfl, rfl⟩

/-- C5 (amended): when algorithm-fallback matching reaches a key whose
declared algorithm string cannot be parsed (every earlier key of the set
having neither matched nor errored), the whole matching pass fails
immediately with `JwkAlgorithmNotSupported`; the remaining keys of the set
and the remaining key sets (universally quantified here) are never
consulted. -/
theorem c5_amended_alg_error_aborts_matching (alg : Algorithm)
    (pre : List Jwk) (k : Jwk) (post : List Jwk) (rest : List JwkSet)
    (s : String)
    (hpre : alg_scan_keys alg pre = .ok false)
    (hk : k.key_algorithm = some s)
    (hs : algorithmFromStr s = none) :
    find_matching_jwks ⟨alg, none⟩ (⟨pre ++ k :: post⟩ :: rest)
      = .error (.jwkAlgorithmNotSupported .invalidAlgorithmName) := by
  have h1 : alg_scan_keys alg (pre ++ k :: post)
      = .error (.jwkAlgorithmNotSupported .invalidAlgorithmName) := by
    rw [alg_scan_keys_append alg pre _ hpre]
    simp [alg_scan_keys, hk, hs]
  simp [find_matching_jwks, alg_scan, h1]

/-- Witness for the amended C5: a set whose keys are (no algorithm, `HS256`,
`RSA-OAEP`, `RS256`) aborts matching at the third key although the fourth
would match. -/
theorem c5_amended_witness :
    find_matching_jwks ⟨.RS256, none⟩
        [⟨[⟨none, none⟩, ⟨none, some "HS256"⟩, ⟨none, some "RSA-OAEP"⟩,
           ⟨none, some "RS256"⟩]⟩,
         ⟨[⟨none, some "RS256"⟩]⟩]
      = .error (.jwkAlgorithmNotSupported .invalidAlgorithmName) :=
  c5_amended_alg_error_aborts_matching .RS256
    [⟨none, none⟩, ⟨none, some "HS256"⟩] ⟨none, some "RSA-OAEP"⟩
    [⟨none, some "RS256"⟩] [⟨[⟨none, some "RS256"⟩]⟩] "RSA-OAEP"
    rfl rfl rfl

/-- C8: with a `kid` in the token header, the owning set of the first key
(candidate order, then key order) whose key-id matches is returned, for every
token algorithm and every assignment of declared key algorithms (first
conjunct); algorithm matching runs exactly when the header has no `kid`
(second conjunct) or no key-id matched (third conjunct). -/
theorem c8_kid_precedence :
    (∀ (alg : Algorithm) (kid : String) (pre : List JwkSet) (s : JwkSet)
       (post : List JwkSet),
      (∀ t ∈ pre, ∀ k ∈ t.keys, k.key_id ≠ some kid) →
      (∃ k ∈ s.keys, k.key_id = some kid) →
      find_matching_jwks ⟨alg, some kid⟩ (pre ++ s :: post) = .ok s)
  ∧ (∀ (h : JwtHeader) (jwks : List JwkSet), h.kid = none →
      find_matching_jwks h jwks = alg_scan h.alg jwks)
  ∧ (∀ (alg : Algorithm) (kid : String) (jwks : List JwkSet),
      kid_scan kid jwks = none →
      find_matching_jwks ⟨alg, some kid⟩ jwks = alg_scan alg jwks) := by
  refine ⟨?_, ?_, ?_⟩
  · intro alg kid pre s post hpre hs
    simp [find_matching_jwks, kid_scan_first_match kid pre s post hpre hs]
  · intro h jwks hk
    cases h with
    | mk alg kid => cases hk; simp [find_matching_jwks]
  · intro alg kid jwks h
    simp [find_matching_jwks, h]

/-- Witness for C8: the token's `kid` selects the second key set (whose
matching key declares no algorithm at all) although the first set's key
declares the token's own algorithm `HS256`. -/
theorem c8_witness :
    find_matching_jwks ⟨.HS256, some "k2"⟩
        [⟨[⟨some "k1", some "HS256"⟩]⟩, ⟨[⟨some "k2", none⟩]⟩]
      = .ok ⟨[⟨some "k2", none⟩]⟩ :=
  c8_kid_precedence.1 .HS256 "k2" [⟨[⟨some "k1", some "HS256"⟩]⟩]
    ⟨[⟨some "k2", none⟩]⟩ [] (by decide) ⟨⟨some "k2", none⟩, by decide, rfl⟩

/-- C6: a header rule with a configured prefix whose named header is present
with a value that does not start with the prefix fails the whole lookup
immediately with `MismatchedPrefix`, never reaching the remaining rules
(universally quantified); an absent named header instead moves lookup on to
the remaining rules. -/
theorem c6_header_prefix_mismatch :
    (∀ (pq : String → List (String × String))
       (pc : String → Option (String × String))
       (rest : List JwtAuthPluginLookupLocation)
       (req : ConductorHttpRequest) (name p v : String),
      headers_get req.headers name = some (.valid v) →
      p.data.isPrefixOf v.data = false →
      lookup pq pc (.header name (some p) :: rest) req
        = .error .mismatchedPrefix)
  ∧ (∀ (pq : String → List (String × String))
       (pc : String → Option (String × String))
       (rest : List JwtAuthPluginLookupLocation)
       (req : ConductorHttpRequest) (name : String) (pfx_opt : Option String),
      headers_get req.headers name = none →
      lookup pq pc (.header name pfx_opt :: rest) req
        = lookup pq pc rest req) := by
  constructor
  · intro pq pc rest req name p v h1 h2
    simp [lookup, h1, HeaderValue.to_str, stripPfx, h2]
  · intro pq pc rest req name pfx_opt h
    simp [lookup, h]

/-- Witness for C6: `authorization: Basic abc` against a `Bearer ` prefix is
a prefix mismatch even though a later rule would find a query token. -/
theorem c6_witness :
    lookup (fun _ => [("token", "q")]) (fun _ => none)
      [.header "authorization" (some "Bearer "), .query_param "token"]
      ⟨[("authorization", .valid "Basic abc")], "token=q"⟩
      = .error .mismatchedPrefix :=
  c6_header_prefix_mismatch.1 (fun _ => [("token", "q")]) (fun _ => none)
    [.query_param "token"] ⟨[("authorization", .valid "Basic abc")], "token=q"⟩
    "authorization" "Bearer " "Basic abc" rfl (by decide)

/-- C9 counterexample: a header rule whose named header is present but fails
`to_str` makes the whole lookup fail with `FailedToStringifyHeader` (first
conjunct), even though the next rule alone would have produced the token
`tok` (second conjunct) — refuting the claim that such a failure is skipped
and lookup proceeds with the remaining credential sources. -/
theorem c9_counterexample :
    lookup (fun _ => []) (fun _ => none)
      [.header "x-token" none, .header "authorization" none]
      ⟨[("x-token", .invalid), ("authorization", .valid "tok")], ""⟩
      = .error .failedToStringifyHeader
  ∧ lookup (fun _ => []) (fun _ => none)
      [.header "authorization" none]
      ⟨[("x-token", .invalid), ("authorization", .valid "tok")], ""⟩
      = .ok "tok" :=
  ⟨rfl, rfl⟩

/-- C9 (amended): failures on the cookie source are skipped — a cookie
header that fails `to_str` moves lookup on to the remaining rules (first
conjunct) and an unparseable cookie segment is skipped within the cookie
scan (second conjunct) — but a header-rule value that fails to decode to a
string fails the whole lookup immediately with `FailedToStringifyHeader`
(third conjunct). -/
theorem c9_amended_cookie_skip_header_fail :
    (∀ (pq : String → List (String × String))
       (pc : String → Option (String × String))
       (rest : List JwtAuthPluginLookupLocation)
       (req : ConductorHttpRequest) (name : String),
      headers_get req.headers "cookie" = some .invalid →
      lookup pq pc (.cookie name :: rest) req = lookup pq pc rest req)
  ∧ (∀ (pc : String → Option (String × String)) (name item : String)
       (items : List String),
      pc item = none →
      find_cookie pc name (item :: items) = find_cookie pc name items)
  ∧ (∀ (pq : String → List (String × String))
       (pc : String → Option (String × String))
       (rest : List JwtAuthPluginLookupLocation)
       (req : ConductorHttpRequest) (name : String) (pfx_opt : Option String),
      headers_get req.headers name = some .invalid →
      lookup pq pc (.header name pfx_opt :: rest) req
        = .error .failedToStringifyHeader) := by
  refine ⟨?_, ?_, ?_⟩
  · intro pq pc rest req name h
    simp [lookup, h, HeaderValue.to_str]
  · intro pc name item items h
    simp [find_cookie, h]
  · intro pq pc rest req name pfx_opt h
    simp [lookup, h, HeaderValue.to_str]

/-- Witness for the amended C9: an undecodable cookie header is skipped and
the following header rule produces the token. -/
theorem c9_amended_witness :
    lookup (fun _ => []) (fun _ => none)
      [.cookie "sid", .header "authorization" none]
      ⟨[("cookie", .invalid), ("authorization", .valid "tok")], ""⟩
      = .ok "tok" :=
  (c9_amended_cookie_skip_header_fail.1 (fun _ => []) (fun _ => none)
    [.header "authorization" none]
    ⟨[("cookie", .invalid), ("authorization", .valid "tok")], ""⟩ "sid"
    rfl).trans rfl

/-- If every attempt on a list of keys fails, the scan for a successful
attempt finds nothing. -/
theorem find_ok_none (td : Jwk → Except JwtError TokenPayload)
    (jwks : List Jwk) (h : ∀ j ∈ jwks, isOkB (td j) = false) :
    (jwks.map td).find? (fun r => isOkB r) = none := by
  induction jwks with
  | nil => rfl
  | cons j rest ih =>
    simp only [List.map_cons, List.find?_cons, h j (by simp)]
    exact ih (fun j' hj' => h j' (by simp [hj']))

/-- With every attempt before `k` failing and the attempt on `k` succeeding,
the scan for a successful attempt finds `k`'s attempt. -/
theorem find_ok_first (td : Jwk → Except JwtError TokenPayload)
    (pre : List Jwk) (k : Jwk) (post : List Jwk) (v : TokenPayload)
    (hpre : ∀ j ∈ pre, isOkB (td j) = false) (hk : td k = .ok v) :
    ((pre ++ k :: post).map td).find? (fun r => isOkB r) = some (.ok v) := by
  induction pre with
  | nil => simp [List.find?_cons, hk, isOkB]
  | cons j rest ih =>
    simp only [List.cons_append, List.map_cons, List.find?_cons,
      hpre j (by simp)]
    exact ih (fun j' hj' => hpre j' (by simp [hj']))

/-- C2: over any per-key attempt function, `decode_and_validate_token`
returns the verified payload of the first key (in list order) whose attempt
succeeds, whatever the later keys (which are universally quantified) would
do; and when every key's attempt fails it returns
`AllProvidersFailedToDecode` whose error list has exactly one entry per key,
in key order, each entry being the corresponding key's error. -/
theorem c2_first_key_wins_else_aggregate :
    (∀ (td : Jwk → Except JwtError TokenPayload) (pre : List Jwk) (k : Jwk)
       (post : List Jwk) (v : TokenPayload),
      (∀ j ∈ pre, isOkB (td j) = false) → td k = .ok v →
      decode_and_validate_token td (pre ++ k :: post) = .ok v)
  ∧ (∀ (td : Jwk → Except JwtError TokenPayload) (jwks : List Jwk),
      (∀ j ∈ jwks, isOkB (td j) = false) →
      decode_and_validate_token td jwks
        = .error (.allProvidersFailedToDecode
            (jwks.map (fun j => unwrapErr (td j))))
      ∧ (jwks.map (fun j => unwrapErr (td j))).length = jwks.length
      ∧ ∀ j ∈ jwks, td j = .error (unwrapErr (td j))) := by
  constructor
  · intro td pre k post v hpre hk
    simp only [decode_and_validate_token]
    rw [find_ok_first td pre k post v hpre hk]
  · intro td jwks h
    refine ⟨?_, by simp, ?_⟩
    · simp only [decode_and_validate_token]
      rw [find_ok_none td jwks h]
      simp [List.map_map, Function.comp]
    · intro j hj
      have := h j hj
      cases hjv : td j with
      | ok v => rw [hjv] at this; simp [isOkB] at this
      | error e => simp [unwrapErr, hjv]

/-- Witness for C2: on three keys where only the middle one succeeds, the
middle key's payload is returned. -/
theorem c2_witness :
    decode_and_validate_token
      (fun j => if j.key_id = some "good" then .ok ⟨⟨.HS256, none⟩, .null⟩
                else .error .jwkMissingAlgorithm)
      [⟨some "bad", none⟩, ⟨some "good", none⟩, ⟨some "other", none⟩]
      = .ok ⟨⟨.HS256, none⟩, .null⟩ :=
  c2_first_key_wins_else_aggregate.1
    (fun j => if j.key_id = some "good" then .ok ⟨⟨.HS256, none⟩, .null⟩
              else .error .jwkMissingAlgorithm)
    [⟨some "bad", none⟩] ⟨some "good", none⟩ [⟨some "other", none⟩]
    ⟨⟨.HS256, none⟩, .null⟩ (by decide) rfl

/-- C3 counterexample: with the audience allow-list `["a"]` configured and
the underlying decode succeeding with an `aud` claim that is present but not
an array (`"x"`, also not an entry of the list), `try_decode_from_jwk`
accepts the token (first conjunct; the second exhibits the non-array `aud`),
refuting the claim that every token whose `aud` is not an array is rejected
with an invalid-audience failure. -/
theorem c3_counterexample :
    try_decode_from_jwk (fun _ => .ok .mk)
      (fun _ _ _ => .ok ⟨⟨.HS256, none⟩, .obj [("aud", .str "x")]⟩)
      ⟨[], none, some ["a"], none, none, none⟩ "tok" ⟨none, some "HS256"⟩
      = .ok ⟨⟨.HS256, none⟩, .obj [("aud", .str "x")]⟩
  ∧ (Value.obj [("aud", .str "x")]).get "aud" = some (.str "x") :=
  ⟨rfl, rfl⟩

/-- C3 (amended): when an audience allow-list is configured and the
underlying decode succeeds (with no issuer allow-list configured, so the
issuer check passes), the post-decode audience check of
`try_decode_from_jwk` rejects with an invalid-audience failure every token
whose `aud` claim is missing, or is an array containing any entry that is
not a string of the allow-list; it passes tokens whose `aud` is an array
with every entry a string of the allow-list, and — unlike the original
claim — also passes tokens whose `aud` is present but not an array; with no
audience allow-list configured the audience check is skipped. -/
theorem c3_amended_audience_check
    (from_jwk : Jwk → Except JwtLibError DecodingKey)
    (decode : String → DecodingKey → Validation → Except JwtLibError TokenPayload)
    (config : JwtAuthPluginConfig) (token : String) (jwk : Jwk)
    (dk : DecodingKey) (s : String) (a : Algorithm) (td : TokenPayload)
    (hfj : from_jwk jwk = .ok dk)
    (halg : jwk.key_algorithm = some s)
    (hparse : algorithmFromStr s = some a)
    (hdec : decode token dk ⟨a, config.issuers, config.audiences⟩ = .ok td)
    (hiss : config.issuers = none) :
    (∀ auds, config.audiences = some auds →
      td.claims.get "aud" = none →
      try_decode_from_jwk from_jwk decode config token jwk
        = .error (.failedToDecodeToken .invalidAudience))
  ∧ (∀ auds xs, config.audiences = some auds →
      td.claims.get "aud" = some (.arr xs) →
      (∀ v ∈ xs, ∃ t, v = .str t ∧ t ∈ auds) →
      try_decode_from_jwk from_jwk decode config token jwk = .ok td)
  ∧ (∀ auds xs, config.audiences = some auds →
      td.claims.get "aud" = some (.arr xs) →
      ¬(∀ v ∈ xs, ∃ t, v = .str t ∧ t ∈ auds) →
      try_decode_from_jwk from_jwk decode config token jwk
        = .error (.failedToDecodeToken .invalidAudience))
  ∧ (∀ auds v, config.audiences = some auds →
      td.claims.get "aud" = some v →
      (∀ xs, v ≠ .arr xs) →
      try_decode_from_jwk from_jwk decode config token jwk = .ok td)
  ∧ (config.audiences = none →
      try_decode_from_jwk from_jwk decode config token jwk = .ok td) := by
  have hmain : try_decode_from_jwk from_jwk decode config token jwk
      = audience_post_check config td := by
    simp only [try_decode_from_jwk, hfj, halg, hparse, hdec]
    simp [issuer_post_check, hiss]
  refine ⟨?_, ?_, ?_, ?_, ?_⟩
  · intro auds haud hget
    rw [hmain]
    simp [audience_post_check, haud, hget]
  · intro auds xs haud hget hall
    have hb : (xs.all (fun v =>
        match v with
        | .str t => auds.contains t
        | _ => false)) = true := by
      rw [List.all_eq_true]
      intro v hv
      obtain ⟨t, rfl, ht⟩ := hall v hv
      simpa using List.elem_eq_true_of_mem ht
    rw [hmain]
    simp only [audience_post_check, haud, hget]
    rw [hb]
    simp
  · intro auds xs haud hget hnall
    have hb : (xs.all (fun v =>
        match v with
        | .str t => auds.contains t
        | _ => false)) = false := by
      push_neg at hnall
      obtain ⟨v, hv, hvp⟩ := hnall
      rw [List.all_eq_false]
      refine ⟨v, hv, ?_⟩
      cases v with
      | str t => simpa using hvp t rfl
      | null => simp
      | bool b => simp
      | num n => simp
      | arr ys => simp
      | obj fs => simp
    rw [hmain]
    simp only [audience_post_check, haud, hget]
    rw [hb]
    simp
  · intro auds v haud hget hne
    rw [hmain]
    cases v with
    | arr xs => exact absurd rfl (hne xs)
    | null => simp [audience_post_check, haud, hget]
    | bool b => simp [audience_post_check, haud, hget]
    | num n => simp [audience_post_check, haud, hget]
    | str t => simp [audience_post_check, haud, hget]
    | obj fs => simp [audience_post_check, haud, hget]
  · intro haud
    rw [hmain]
    simp [audience_post_check, haud]

/-- Witness for the amended C3: with allow-list `["a", "b"]` a token whose
`aud` is the array `["a"]` is accepted. -/
theorem c3_amended_witness :
    try_decode_from_jwk (fun _ => .ok .mk)
      (fun _ _ _ => .ok ⟨⟨.HS256, none⟩, .obj [("aud", .arr [.str "a"])]⟩)
      ⟨[], none, some ["a", "b"], none, none, none⟩ "tok" ⟨none, some "HS256"⟩
      = .ok ⟨⟨.HS256, none⟩, .obj [("aud", .arr [.str "a"])]⟩ :=
  (c3_amended_audience_check (fun _ => .ok .mk)
    (fun _ _ _ => .ok ⟨⟨.HS256, none⟩, .obj [("aud", .arr [.str "a"])]⟩)
    ⟨[], none, some ["a", "b"], none, none, none⟩ "tok" ⟨none, some "HS256"⟩
    .mk "HS256" .HS256 ⟨⟨.HS256, none⟩, .obj [("aud", .arr [.str "a"])]⟩
    rfl rfl rfl rfl rfl).2.1 ["a", "b"] [.str "a"] rfl rfl
    (by
      intro v hv
      rw [List.mem_singleton] at hv
      exact ⟨"a", hv, by simp⟩)

/-- C4 counterexample: with the issuer allow-list `["good"]` configured and
the underlying decode succeeding with an `iss` claim that is present but not
a string (the number `5`, in particular not a string present in the
allow-list), `try_decode_from_jwk` accepts the token (first conjunct; the
second exhibits the non-string `iss`), refuting the claim that every such
token is rejected with an invalid-issuer failure. -/
theorem c4_counterexample :
    try_decode_from_jwk (fun _ => .ok .mk)
      (fun _ _ _ => .ok ⟨⟨.HS256, none⟩, .obj [("iss", .num 5)]⟩)
      ⟨[], some ["good"], none, none, none, none⟩ "tok" ⟨none, some "HS256"⟩
      = .ok ⟨⟨.HS256, none⟩, .obj [("iss", .num 5)]⟩
  ∧ (Value.obj [("iss", .num 5)]).get "iss" = some (.num 5) :=
  ⟨rfl, rfl⟩

/-- C4 (amended): when an issuer allow-list is configured and the underlying
decode succeeds, the post-decode issuer check of `try_decode_from_jwk`
rejects with an invalid-issuer failure every token whose `iss` claim is
missing or is a string not present in the allow-list; a string `iss` present
in the allow-list passes on to the audience check, and — unlike the original
claim — so does a present non-string `iss`; with no issuer allow-list
configured every token passes the issuer check. -/
theorem c4_amended_issuer_check
    (from_jwk : Jwk → Except JwtLibError DecodingKey)
    (decode : String → DecodingKey → Validation → Except JwtLibError TokenPayload)
    (config : JwtAuthPluginConfig) (token : String) (jwk : Jwk)
    (dk : DecodingKey) (s : String) (a : Algorithm) (td : TokenPayload)
    (hfj : from_jwk jwk = .ok dk)
    (halg : jwk.key_algorithm = some s)
    (hparse : algorithmFromStr s = some a)
    (hdec : decode token dk ⟨a, config.issuers, config.audiences⟩ = .ok td) :
    (∀ l, config.issuers = some l →
      td.claims.get "iss" = none →
      try_decode_from_jwk from_jwk decode config token jwk
        = .error (.failedToDecodeToken .invalidIssuer))
  ∧ (∀ l t, config.issuers = some l →
      td.claims.get "iss" = some (.str t) → t ∉ l →
      try_decode_from_jwk from_jwk decode config token jwk
        = .error (.failedToDecodeToken .invalidIssuer))
  ∧ (∀ l t, config.issuers = some l →
      td.claims.get "iss" = some (.str t) → t ∈ l →
      try_decode_from_jwk from_jwk decode config token jwk
        = audience_post_check config td)
  ∧ (∀ l v, config.issuers = some l →
      td.claims.get "iss" = some v → (∀ t, v ≠ .str t) →
      try_decode_from_jwk from_jwk decode config token jwk
        = audience_post_check config td)
  ∧ (config.issuers = none →
      try_decode_from_jwk from_jwk decode config token jwk
        = audience_post_check config td) := by
  have hmain : try_decode_from_jwk from_jwk decode config token jwk
      = issuer_post_check config td := by
    simp only [try_decode_from_jwk, hfj, halg, hparse, hdec]
  refine ⟨?_, ?_, ?_, ?_, ?_⟩
  · intro l hl hget
    rw [hmain]
    simp [issuer_post_check, hl, hget]
  · intro l t hl hget ht
    rw [hmain]
    simp [issuer_post_check, hl, hget, ht]
  · intro l t hl hget ht
    rw [hmain]
    simp [issuer_post_check, hl, hget, ht]
  · intro l v hl hget hne
    rw [hmain]
    cases v with
    | str t => exact absurd rfl (hne t)
    | null => simp [issuer_post_check, hl, hget]
    | bool b => simp [issuer_post_check, hl, hget]
    | num n => simp [issuer_post_check, hl, hget]
    | arr ys => simp [issuer_post_check, hl, hget]
    | obj fs => simp [issuer_post_check, hl, hget]
  · intro hl
    rw [hmain]
    simp [issuer_post_check, hl]

/-- Witness for the amended C4: with allow-list `["good"]` a token whose
`iss` is the string `evil` is rejected with an invalid-issuer failure. -/
theorem c4_amended_witness :
    try_decode_from_jwk (fun _ => .ok .mk)
      (fun _ _ _ => .ok ⟨⟨.HS256, none⟩, .obj [("iss", .str "evil")]⟩)
      ⟨[], some ["good"], none, none, none, none⟩ "tok" ⟨none, some "HS256"⟩
      = .error (.failedToDecodeToken .invalidIssuer) :=
  (c4_amended_issuer_check (fun _ => .ok .mk)
    (fun _ _ _ => .ok ⟨⟨.HS256, none⟩, .obj [("iss", .str "evil")]⟩)
    ⟨[], some ["good"], none, none, none, none⟩ "tok" ⟨none, some "HS256"⟩
    .mk "HS256" .HS256 ⟨⟨.HS256, none⟩, .obj [("iss", .str "evil")]⟩
    rfl rfl rfl rfl).2.1 ["good"] "evil" rfl rfl (by decide)

/-- C10: with an audience allow-list configured, a token whose `aud` claim
is present and equal to the empty JSON array passes the post-decode audience
check of `try_decode_from_jwk` (the all-entries condition is vacuously
true). -/
theorem c10_empty_aud_array_passes (config : JwtAuthPluginConfig)
    (td : TokenPayload) (auds : List String)
    (haud : config.audiences = some auds)
    (hget : td.claims.get "aud" = some (.arr [])) :
    audience_post_check config td = .ok td := by
  simp [audience_post_check, haud, hget]

/-- Witness for C10: the empty `aud` array against the allow-list `["a"]`. -/
theorem c10_witness :
    audience_post_check ⟨[], none, some ["a"], none, none, none⟩
      ⟨⟨.HS256, none⟩, .obj [("aud", .arr [])]⟩
      = .ok ⟨⟨.HS256, none⟩, .obj [("aud", .arr [])]⟩ :=
  c10_empty_aud_array_passes ⟨[], none, some ["a"], none, none, none⟩
    ⟨⟨.HS256, none⟩, .obj [("aud", .arr [])]⟩ ["a"] rfl rfl

/-- C7: when authentication fails and `reject_unauthenticated_requests` is
unset or `false`, the downstream hook leaves the request-scoped context
completely unchanged (no claims key, no token key, no short-circuit); and
from a context holding neither reserved key the upstream hook returns the
context and the outbound request unchanged — no header is appended —
whatever forwarding headers are configured and whatever the header
parsers/serializer do. -/
theorem c7_fail_open_no_injection :
    (∀ (config : JwtAuthPluginConfig) (e : JwtError)
       (c : RequestExecutionContext),
      (config.reject_unauthenticated_requests = none ∨
       config.reject_unauthenticated_requests = some false) →
      on_downstream_http_request config (.error e) c = c)
  ∧ (∀ (phv : String → Option HeaderValue) (phn : String → Option String)
       (vts : Value → String) (config : JwtAuthPluginConfig)
       (c : RequestExecutionContext) (req : ConductorHttpRequest),
      ctx_get c CLAIMS_CONTEXT_KEY = none →
      ctx_get c TOKEN_CONTEXT_KEY = none →
      on_upstream_http_request phv phn vts config c req = (c, req)) := by
  constructor
  · intro config e c h
    rcases h with h | h <;>
      simp [on_downstream_http_request, isSomeAndTrue, h]
  · intro phv phn vts config c req h1 h2
    cases hfc : config.forward_claims_to_upstream_header <;>
      cases hft : config.forward_token_to_upstream_header <;>
        simp [on_upstream_http_request, forward_token_phase, hfc, hft, h1, h2]

/-- Witness for C7: a failed authentication with the reject flag unset
leaves an empty context untouched, and the upstream hook appends nothing
even with both forwarding headers configured. -/
theorem c7_witness :
    on_downstream_http_request ⟨[], none, none, none, none, none⟩
      (.error .failedToLocateProvider) ⟨[], none⟩ = ⟨[], none⟩
  ∧ on_upstream_http_request (fun t => some (.valid t)) (fun n => some n)
      (fun _ => "") ⟨[], none, none, some "x-claims", some "x-token", none⟩
      ⟨[], none⟩ ⟨[("host", .valid "h")], ""⟩
      = (⟨[], none⟩, ⟨[("host", .valid "h")], ""⟩) :=
  ⟨c7_fail_open_no_injection.1 ⟨[], none, none, none, none, none⟩
    .failedToLocateProvider ⟨[], none⟩ (Or.inl rfl),
   c7_fail_open_no_injection.2 (fun t => some (.valid t)) (fun n => some n)
    (fun _ => "") ⟨[], none, none, some "x-claims", some "x-token", none⟩
    ⟨[], none⟩ ⟨[("host", .valid "h")], ""⟩ rfl rfl⟩

end Conductor
